import Mathlib

/-
Verification of the remocom remote-build dispatcher (src/src/main.rs).

The program is a single `main` function: it resolves a build host from the
CLI flag and two TOML config files, derives a remote workspace path by
hashing the project directory, transfers the sources with rsync, runs the
cargo command over ssh, optionally transfers artifacts and the Cargo.lock
back, and propagates the exit status of the remote build.

The shallow embedding below models:
  * the TOML config lookup (`config_from_file`, the `c["remote"]` indexing
    of the toml crate, which panics when the key is absent, and `as_str`,
    which yields `none` for non-string values);
  * the host resolution `remote.or_else(...)` chain (main.rs lines 137-155);
  * the four-stage pipeline with its `exit(..)` calls (lines 162-267),
    parameterised by the outcomes of the external subprocess invocations
    (`Command::output()` returns an error on spawn/io failure, otherwise the
    process output; the code only inspects the status of the ssh invocation);
  * the remote command string construction (lines 196-204);
  * the outbound rsync argument list (lines 164-185);
  * the workspace path derivation (lines 157-160): the Rust `DefaultHasher`
    (SipHash-1-3 with zero keys) applied to the byte stream produced by
    `impl Hash for Path` (component bytes with separators and interior `.`
    components elided, followed by the hashed byte count as a
    little-endian `usize`).
-/

set_option autoImplicit false

namespace Remocom

/-! Model of the parsed TOML configuration values.

A successfully parsed TOML document is a table.  The program only ever
performs `c["remote"].as_str()`, which distinguishes string values from all
other values, so non-string values are collapsed into one constructor. -/

inductive TomlVal where
  | str (s : String)
  | nonStr
deriving DecidableEq, Repr

abbrev Table := List (String × TomlVal)

/-- Table lookup; `c["remote"]` uses this and panics when it yields `none`
(the `Index` impl of the toml crate calls `.expect("index not found")`). -/
def tableGet (t : Table) (k : String) : Option TomlVal :=
  List.lookup k t

/-- `config_from_file` (main.rs lines 89-112): a read error (modelled by
`readResult = none`) or a parse error (`parseToml s = none`) is logged as a
warning and degrades to `none`; otherwise the parsed table is returned.
The TOML parser itself is external; it is a parameter. -/
def config_from_file (readResult : Option String) (parseToml : String → Option Table) :
    Option Table :=
  match readResult with
  | none => none
  | some s => parseToml s

/-- Outcome of the host-resolution expression (main.rs lines 145-155). -/
inductive ResolveOutcome where
  | host (h : String)
  /-- `exit(-3)`: no remote server defined. -/
  | exitNoRemote
  /-- The toml `Index` panic: a parsed config file has no `remote` key. -/
  | panicMissingKey
deriving DecidableEq, Repr

/-- The `config_options.into_iter().flat_map(|config| config.and_then(|c|
c["remote"].as_str().map(String::from))).next()` chain: the first parsed
config is indexed at `"remote"` (panicking if the key is absent); a string
value is taken, a non-string value (`as_str() == None`) falls through to
the next source.  Evaluation is lazy: later sources are not indexed once a
value is found. -/
def firstRemote : List (Option Table) → ResolveOutcome
  | [] => .exitNoRemote
  | none :: rest => firstRemote rest
  | some c :: rest =>
      match tableGet c "remote" with
      | none => .panicMissingKey
      | some (TomlVal.str s) => .host s
      | some TomlVal.nonStr => firstRemote rest

/-- `remote.or_else(..)` (main.rs lines 145-155): the CLI flag wins outright;
otherwise the config sources are consulted in order, project-local file
first, user-global (xdg) file second. -/
def resolveHost (cli : Option String) (projCfg globCfg : Option Table) : ResolveOutcome :=
  match cli with
  | some h => .host h
  | none => firstRemote [projCfg, globCfg]

/-! Pipeline state machine (main.rs lines 114-268). -/

/-- The externally-visible pipeline stages (subprocess invocations). -/
inductive Stage where
  | syncOut
  | remoteExecute
  | copyBackArtifacts
  | copyBackLock
deriving DecidableEq, Repr

/-- How the process terminates. -/
inductive ExitKind where
  /-- `exit(n)` or falling off the end of `main` (code 0). -/
  | code (n : Int)
  /-- Abnormal termination by panic (e.g. the toml `Index` panic). -/
  | panic
deriving DecidableEq, Repr

/-- CLI options of the `remote` subcommand, as already parsed by structopt
(main.rs lines 12-84). -/
structure Cli where
  remote : Option String
  build_env : String
  rustup_default : String
  env : String
  copy_back : Option (Option String)
  no_copy_lock : Bool
  hidden : Bool
  command : String
  options : List String
deriving DecidableEq, Repr

/-- Outcomes of the external effects consumed by one run.

Each `Command::output()` call either fails (`Except.error`, the io error
that `unwrap_or_else` handles — e.g. the binary cannot be spawned) or
returns the status of the finished process.  A Rust `ExitStatus` is modelled as
`Option Int`: `some n` = exited with code `n`, `none` = no code (killed by
a signal); `success()` holds exactly for `some 0`.  The config fields hold
the already-degraded results of `config_from_file` on the project-local
file and of the xdg lookup chain (`none` also when the xdg directories or
the file do not exist). -/
structure World where
  projCfg : Option Table
  globCfg : Option Table
  rsyncOutRes : Except String (Option Int)
  sshRes : Except String (Option Int)
  copyBackRes : Except String (Option Int)
  copyLockRes : Except String (Option Int)
deriving Repr

/-- `ExitStatus::success()` (true exactly when the exit code is 0). -/
def statusSuccess (st : Option Int) : Bool :=
  st = some 0

/-- Result of one run: which stages were invoked, and how the process
terminated. -/
structure RunResult where
  invoked : List Stage
  exit : ExitKind
deriving DecidableEq, Repr

/-- Final lines of `main` (265-267): a non-success ssh status is propagated
(`status.code().unwrap_or(1)`), otherwise the process ends with code 0. -/
def finalize (stages : List Stage) (st : Option Int) : RunResult :=
  if statusSuccess st then ⟨stages, .code 0⟩ else ⟨stages, .code (st.getD 1)⟩

/-- Lines 243-263: the Cargo.lock copy-back runs unless `--no-copy-lock`;
an io failure of the rsync invocation exits with -7. -/
def afterCopyBack (stages : List Stage) (c : Cli) (w : World) (st : Option Int) : RunResult :=
  if c.no_copy_lock then finalize stages st
  else
    match w.copyLockRes with
    | .error _ => ⟨stages ++ [.copyBackLock], .code (-7)⟩
    | .ok _ => finalize (stages ++ [.copyBackLock]) st

/-- The whole run of `main` after metadata discovery (lines 137-267):
resolve the host (exit -3 if no source yields one, panic if a parsed config
lacks the `remote` key), rsync the sources out (exit -4 on io failure; the
exit status of the rsync process itself is not inspected), run the build over ssh
(exit -5 on io failure), optionally rsync artifacts back (exit -6 on io
failure), optionally rsync the Cargo.lock back (exit -7 on io failure), and
finally propagate the ssh status. -/
def runPipeline (c : Cli) (w : World) : RunResult :=
  match resolveHost c.remote w.projCfg w.globCfg with
  | .panicMissingKey => ⟨[], .panic⟩
  | .exitNoRemote => ⟨[], .code (-3)⟩
  | .host _ =>
      match w.rsyncOutRes with
      | .error _ => ⟨[.syncOut], .code (-4)⟩
      | .ok _ =>
          match w.sshRes with
          | .error _ => ⟨[.syncOut, .remoteExecute], .code (-5)⟩
          | .ok st =>
              match c.copy_back with
              | some _ =>
                  (match w.copyBackRes with
                   | .error _ =>
                       ⟨[.syncOut, .remoteExecute, .copyBackArtifacts], .code (-6)⟩
                   | .ok _ =>
                       afterCopyBack [.syncOut, .remoteExecute, .copyBackArtifacts] c w st)
              | none => afterCopyBack [.syncOut, .remoteExecute] c w st

/-! Remote command string (main.rs lines 196-204). -/

/-- `format!("source {}; rustup default {}; cd {}; {} cargo {} {}", env,
rustup_default, build_path, build_env, command, options.join(" "))`.
the Rust `join(" ")` is `String.intercalate " "`. -/
def buildCommand (envProfile rustupDefault buildPathStr buildEnv command : String)
    (options : List String) : String :=
  "source " ++ envProfile ++ "; rustup default " ++ rustupDefault ++ "; cd " ++
    buildPathStr ++ "; " ++ buildEnv ++ " cargo " ++ command ++ " " ++
    String.intercalate " " options

/-! Outbound rsync argument list (main.rs lines 164-185). -/

/-- Arguments of the outbound `rsync` invocation, in the order the code adds
them: `-a --delete --compress --info=progress2 --exclude --target`, then
`--exclude .*` when `--transfer-hidden` was not given, then `--rsync-path`,
its value, the source `format!("{}/", project_dir)` and the destination
`format!("{}:{}", build_server, build_path)`. -/
def rsyncToArgs (hidden : Bool) (projectDir buildServer buildPathStr : String) :
    List String :=
  ["-a", "--delete", "--compress", "--info=progress2", "--exclude", "--target"]
    ++ (if hidden then [] else ["--exclude", ".*"])
    ++ ["--rsync-path", "mkdir -p remote-builds && rsync",
        projectDir ++ "/", buildServer ++ ":" ++ buildPathStr]

/-! Workspace path derivation (main.rs lines 157-160).

`DefaultHasher` is SipHash-1-3 with both keys zero.  `PathBuf::hash`
delegates to `Path::hash` (rust std, library/core `impl Hash for Path`),
which on Unix feeds the hasher the component bytes of the path with
separators and redundant interior `.` components elided, followed by the
number of bytes fed, written as a little-endian `usize` (64-bit platform
assumed).  Bytes are modelled as `Nat`s below 256; the project path is the
list of its UTF-8 bytes (47 = `/`, 46 = `.`). -/

/-- 2^64 wrap-around. -/
def wrap64 (n : Nat) : Nat :=
  n % 18446744073709551616

/-- Rotate a 64-bit word left by `b` bits (`0 < b < 64`, input below 2^64):
the shifted-out high bits and the shifted-up low bits occupy disjoint bit
ranges, so their sum is their bitwise or. -/
def rotl64 (x b : Nat) : Nat :=
  wrap64 (x * 2 ^ b) + x / 2 ^ (64 - b)

/-- One SipHash round (SIPROUND) on the state `(v0, v1, v2, v3)`. -/
def sipRound : Nat × Nat × Nat × Nat → Nat × Nat × Nat × Nat :=
  fun (v0, v1, v2, v3) =>
    let v0 := wrap64 (v0 + v1)
    let v1 := rotl64 v1 13
    let v1 := v1 ^^^ v0
    let v0 := rotl64 v0 32
    let v2 := wrap64 (v2 + v3)
    let v3 := rotl64 v3 16
    let v3 := v3 ^^^ v2
    let v0 := wrap64 (v0 + v3)
    let v3 := rotl64 v3 21
    let v3 := v3 ^^^ v0
    let v2 := wrap64 (v2 + v1)
    let v1 := rotl64 v1 17
    let v1 := v1 ^^^ v2
    let v2 := rotl64 v2 32
    (v0, v1, v2, v3)

/-- Little-endian value of up to 8 bytes. -/
def leWord : List Nat → Nat
  | [] => 0
  | b :: rest => b % 256 + 256 * leWord rest

/-- Absorb one 64-bit message word (`v3 ^= m`, one round for SipHash-1-3,
`v0 ^= m`). -/
def sipCompress (st : Nat × Nat × Nat × Nat) (m : Nat) : Nat × Nat × Nat × Nat :=
  let st := sipRound (st.1, st.2.1, st.2.2.1, st.2.2.2 ^^^ m)
  (st.1 ^^^ m, st.2.1, st.2.2.1, st.2.2.2)

/-- Absorb all full 8-byte little-endian words; return the state and the
trailing (< 8) bytes. -/
def sipWords : List Nat → Nat × Nat × Nat × Nat → (Nat × Nat × Nat × Nat) × List Nat
  | b0 :: b1 :: b2 :: b3 :: b4 :: b5 :: b6 :: b7 :: rest, st =>
      sipWords rest (sipCompress st (leWord [b0, b1, b2, b3, b4, b5, b6, b7]))
  | rest, st => (st, rest)

/-- SipHash-1-3 with keys `k0 = k1 = 0` (what `DefaultHasher::new()` /
`finish()` compute over the written byte stream): initialise the state with
the SipHash constants, absorb the full words, absorb the final word made of
the length (mod 256) in the top byte and the trailing bytes, xor 0xff into
`v2`, run three finalisation rounds, and xor the state together. -/
def sipHash13 (bytes : List Nat) : Nat :=
  let v0 := 0x736f6d6570736575
  let v1 := 0x646f72616e646f6d
  let v2 := 0x6c7967656e657261
  let v3 := 0x7465646279746573
  let r := sipWords bytes (v0, v1, v2, v3)
  let st := r.1
  let b := bytes.length % 256 * 2 ^ 56 + leWord r.2
  let st := sipCompress st b
  let st := sipRound (sipRound (sipRound (st.1, st.2.1, st.2.2.1 ^^^ 0xff, st.2.2.2)))
  st.1 ^^^ st.2.1 ^^^ st.2.2.1 ^^^ st.2.2.2

/-- After a path separator, `Path::hash` elides a following `.` component:
a lone trailing `.`, or a `.` directly followed by another separator. -/
def dropDot : List Nat → List Nat
  | [] => []
  | b :: rest =>
      if b = 46 then
        match rest with
        | [] => []
        | c :: t => if c = 47 then c :: t else b :: c :: t
      else b :: rest

theorem dropDot_length_le (l : List Nat) : (dropDot l).length ≤ l.length := by
  match l with
  | [] => simp [dropDot]
  | [b] => by_cases hb : b = 46 <;> simp [dropDot, hb]
  | b :: c :: t =>
      by_cases hb : b = 46 <;> by_cases hc : c = 47 <;> simp [dropDot, hb, hc]

/-- The chunks of component bytes that `Path::hash` writes, in order.  The
Rust loop writes a chunk at every separator (writing nothing when the chunk
is empty) and a final chunk at the end of the string; empty chunks are kept
here — they contribute no bytes, so the hashed stream is unchanged. -/
def pathChunks : List Nat → List Nat → List (List Nat)
  | cur, [] => [cur]
  | cur, b :: rest =>
      if b = 47 then cur :: pathChunks [] (dropDot rest)
      else pathChunks (cur ++ [b]) rest
termination_by _ l => l.length
decreasing_by
  · exact Nat.lt_succ_of_le (dropDot_length_le rest)
  · exact Nat.lt_succ_self rest.length

/-- Little-endian bytes of a `usize` (64-bit). -/
def le64 (n : Nat) : List Nat :=
  [n % 256, n / 256 % 256, n / 256 ^ 2 % 256, n / 256 ^ 3 % 256,
   n / 256 ^ 4 % 256, n / 256 ^ 5 % 256, n / 256 ^ 6 % 256, n / 256 ^ 7 % 256]

/-- The byte stream `Path::hash` feeds the hasher: the component bytes
(separators and elided `.` components removed), then `write_usize` of the
number of component bytes. -/
def pathHashInput (root : List Nat) : List Nat :=
  (pathChunks [] root).flatten ++ le64 (pathChunks [] root).flatten.length

/-- Lines 157-160: `format!("~/remote-builds/{}/", hasher.finish())` where
the hasher is `DefaultHasher` fed with `project_dir` (a path). -/
def buildPath (root : List Nat) : String :=
  "~/remote-builds/" ++ Nat.repr (sipHash13 (pathHashInput root)) ++ "/"


/-! Claims C1, C2, C3, C10: pipeline sequencing and exit codes. -/

/-- Claim C1 — if the transfer-out invocation fails (the `Command::output()`
call for the outbound rsync returns an io error, the only failure `main`
observes at this point), the process exits with the transfer-out fatal code
-4 — distinct from the other codes -3, -5, -6, -7, 0 and 1 — and the
RemoteExecute, CopyBackArtifacts and CopyBackLock stages are never invoked. -/
theorem C1_transfer_out_failure_fatal (c : Cli) (w : World) (h e : String)
    (hres : resolveHost c.remote w.projCfg w.globCfg = .host h)
    (hout : w.rsyncOutRes = .error e) :
    (runPipeline c w).exit = .code (-4)
    ∧ Stage.syncOut ∈ (runPipeline c w).invoked
    ∧ Stage.remoteExecute ∉ (runPipeline c w).invoked
    ∧ Stage.copyBackArtifacts ∉ (runPipeline c w).invoked
    ∧ Stage.copyBackLock ∉ (runPipeline c w).invoked
    ∧ (-4 : Int) ∉ ([-3, -5, -6, -7, 0, 1] : List Int) := by
  have hrun : runPipeline c w = ⟨[.syncOut], .code (-4)⟩ := by
    unfold runPipeline
    rw [hres, hout]
  rw [hrun]
  refine ⟨rfl, ?_, ?_, ?_, ?_, ?_⟩ <;> decide

/-- Cli for the C1 witness run. -/
def c1cli : Cli :=
  ⟨some "srv", "RUST_BACKTRACE=1", "stable", "/etc/profile", none, false, false, "build", []⟩

/-- World for the C1 witness run: the outbound rsync invocation fails. -/
def c1world : World :=
  ⟨none, none, .error "io error", .ok (some 0), .ok (some 0), .ok (some 0)⟩

/-- Witness for C1 at a concrete run. -/
theorem C1_transfer_out_failure_fatal_witness :
    (runPipeline c1cli c1world).exit = .code (-4)
    ∧ Stage.remoteExecute ∉ (runPipeline c1cli c1world).invoked :=
  ⟨(C1_transfer_out_failure_fatal c1cli c1world "srv" "io error" rfl rfl).1,
   (C1_transfer_out_failure_fatal c1cli c1world "srv" "io error" rfl rfl).2.2.1⟩

/-- Cli for the C2 counterexample: copy-back disabled, lock copy enabled. -/
def c2cli : Cli :=
  ⟨some "srv", "RUST_BACKTRACE=1", "stable", "/etc/profile", none, false, false, "build", []⟩

/-- World for the C2 counterexample: ssh exits 7, lock-copy rsync fails. -/
def c2world : World :=
  ⟨none, none, .ok (some 0), .ok (some 7), .ok (some 0), .error "io error"⟩

/-- Counterexample to claim C2 as stated: in this run the remote build
launched and exited with status 7 and artifact copy-back is disabled, the
remaining copy-back stage (the lock copy) is attempted, but its rsync
invocation fails, so the final exit code is -7, not 7. -/
theorem C2_claim_counterexample :
    c2cli.copy_back = none
    ∧ c2cli.no_copy_lock = false
    ∧ c2world.sshRes = .ok (some 7)
    ∧ runPipeline c2cli c2world
        = ⟨[.syncOut, .remoteExecute, .copyBackLock], .code (-7)⟩
    ∧ (runPipeline c2cli c2world).exit ≠ .code 7 :=
  ⟨rfl, rfl, rfl, rfl, by decide⟩

/-- Claim C2 (amended) — if the remote build launches and exits with status
`n ≠ 0` and artifact copy-back is disabled, the still-enabled copy-back
stage (the Cargo.lock copy) is attempted, and provided its invocation does
not itself fail (which would exit with its own fatal code -7), the final
exit code is `n` itself, not 0 and not a generic failure code. -/
theorem C2_exit_propagation_amended (c : Cli) (w : World) (h : String)
    (hst : Option Int) (n : Int)
    (hres : resolveHost c.remote w.projCfg w.globCfg = .host h)
    (hout : w.rsyncOutRes = .ok hst)
    (hssh : w.sshRes = .ok (some n))
    (hn : n ≠ 0)
    (hcb : c.copy_back = none)
    (hlock : c.no_copy_lock = true ∨ ∃ s, w.copyLockRes = Except.ok s) :
    (runPipeline c w).exit = .code n
    ∧ (c.no_copy_lock = false → Stage.copyBackLock ∈ (runPipeline c w).invoked) := by
  have hrun : runPipeline c w = afterCopyBack [.syncOut, .remoteExecute] c w (some n) := by
    unfold runPipeline
    rw [hres, hout, hssh, hcb]
  have hfin : statusSuccess (some n) = false := by
    simp [statusSuccess, hn]
  rw [hrun]
  unfold afterCopyBack
  cases hnc : c.no_copy_lock
  case false =>
    rcases hlock with hl | ⟨s, hl⟩
    · rw [hnc] at hl
      exact absurd hl (by decide)
    · rw [hl]
      refine ⟨?_, fun _ => ?_⟩ <;> simp [finalize, hfin]
  case true =>
    refine ⟨by simp [finalize, hfin], fun hc => absurd hc (by decide)⟩

/-- World for the amended-C2 witness run: ssh exits 7, everything else ok. -/
def c2okworld : World :=
  ⟨none, none, .ok (some 0), .ok (some 7), .ok (some 0), .ok (some 0)⟩

/-- Witness for the amended C2 at a concrete run with remote exit status 7. -/
theorem C2_exit_propagation_amended_witness :
    (runPipeline c2cli c2okworld).exit = .code 7
    ∧ Stage.copyBackLock ∈ (runPipeline c2cli c2okworld).invoked :=
  ⟨(C2_exit_propagation_amended c2cli c2okworld "srv" (some 0) 7 rfl rfl rfl (by decide)
      rfl (Or.inr ⟨some 0, rfl⟩)).1,
   (C2_exit_propagation_amended c2cli c2okworld "srv" (some 0) 7 rfl rfl rfl (by decide)
      rfl (Or.inr ⟨some 0, rfl⟩)).2 rfl⟩

/-- Claim C3 — if the remote build exits with status 0, `--copy-back` is
present and the artifact copy-back invocation fails, the process exits with
the copy-back fatal code -6, not 0. -/
theorem C3_copy_back_failure_fatal (c : Cli) (w : World) (h e : String)
    (hst : Option Int) (fn : Option String)
    (hres : resolveHost c.remote w.projCfg w.globCfg = .host h)
    (hout : w.rsyncOutRes = .ok hst)
    (hssh : w.sshRes = .ok (some 0))
    (hcb : c.copy_back = some fn)
    (hfail : w.copyBackRes = .error e) :
    (runPipeline c w).exit = .code (-6)
    ∧ (runPipeline c w).exit ≠ .code 0 := by
  have hrun : runPipeline c w
      = ⟨[.syncOut, .remoteExecute, .copyBackArtifacts], .code (-6)⟩ := by
    unfold runPipeline
    rw [hres, hout, hssh, hcb, hfail]
  rw [hrun]
  exact ⟨rfl, by decide⟩

/-- Cli for the C3 witness run: `--copy-back` given without a path. -/
def c3cli : Cli :=
  ⟨some "srv", "RUST_BACKTRACE=1", "stable", "/etc/profile", some none, false, false,
    "build", []⟩

/-- World for the C3 witness run: ssh exits 0, artifact rsync fails. -/
def c3world : World :=
  ⟨none, none, .ok (some 0), .ok (some 0), .error "io error", .ok (some 0)⟩

/-- Witness for C3 at a concrete run. -/
theorem C3_copy_back_failure_fatal_witness :
    (runPipeline c3cli c3world).exit = .code (-6) :=
  (C3_copy_back_failure_fatal c3cli c3world "srv" "io error" (some 0) none
    rfl rfl rfl rfl rfl).1

/-- Cli for the C10 counterexample: artifact copy-back enabled. -/
def c10cli : Cli :=
  ⟨some "srv", "RUST_BACKTRACE=1", "stable", "/etc/profile", some (some "bin"), false,
    false, "build", []⟩

/-- World for the C10 counterexample: the remote session is killed by a
signal (no exit code) and the artifact copy-back invocation fails. -/
def c10world : World :=
  ⟨none, none, .ok (some 0), .ok none, .error "io error", .ok (some 0)⟩

/-- Counterexample to claim C10 as stated: the remote build session ends
unsuccessfully with no exit code, but the artifact copy-back invocation
fails, so the final exit code is -6, not 1. -/
theorem C10_claim_counterexample :
    c10world.sshRes = .ok none
    ∧ statusSuccess none = false
    ∧ (runPipeline c10cli c10world).exit = .code (-6)
    ∧ (runPipeline c10cli c10world).exit ≠ .code 1 :=
  ⟨rfl, rfl, rfl, by decide⟩

/-- Claim C10 (amended) — if the remote build session ends unsuccessfully
with no exit code (killed by a signal), then provided the enabled copy-back
invocations succeed (otherwise their fatal codes -6 or -7 preempt), the final
exit code is `status.code().unwrap_or(1)` = 1. -/
theorem C10_signal_exit_amended (c : Cli) (w : World) (h : String) (hst : Option Int)
    (hres : resolveHost c.remote w.projCfg w.globCfg = .host h)
    (hout : w.rsyncOutRes = .ok hst)
    (hssh : w.sshRes = .ok none)
    (hcopy : c.copy_back = none ∨ ∃ s, w.copyBackRes = Except.ok s)
    (hlock : c.no_copy_lock = true ∨ ∃ s, w.copyLockRes = Except.ok s) :
    (runPipeline c w).exit = .code 1 := by
  have hafter : ∀ stages : List Stage, (afterCopyBack stages c w none).exit = .code 1 := by
    intro stages
    unfold afterCopyBack
    cases hnc : c.no_copy_lock
    case false =>
      rcases hlock with hl | ⟨s, hl⟩
      · rw [hnc] at hl
        exact absurd hl (by decide)
      · rw [hl]
        simp [finalize, statusSuccess]
    case true =>
      simp [finalize, statusSuccess]
  rcases hcopy with hc | ⟨s, hc⟩
  · have hrun : runPipeline c w = afterCopyBack [.syncOut, .remoteExecute] c w none := by
      unfold runPipeline
      rw [hres, hout, hssh, hc]
    rw [hrun]
    exact hafter _
  · cases hcb : c.copy_back with
    | none =>
        have hrun : runPipeline c w = afterCopyBack [.syncOut, .remoteExecute] c w none := by
          unfold runPipeline
          rw [hres, hout, hssh, hcb]
        rw [hrun]
        exact hafter _
    | some fn =>
        have hrun : runPipeline c w
            = afterCopyBack [.syncOut, .remoteExecute, .copyBackArtifacts] c w none := by
          unfold runPipeline
          rw [hres, hout, hssh, hcb, hc]
        rw [hrun]
        exact hafter _

/-- Cli for the amended-C10 witness run: lock copy disabled. -/
def c10okcli : Cli :=
  ⟨some "srv", "RUST_BACKTRACE=1", "stable", "/etc/profile", none, true, false, "build", []⟩

/-- World for the amended-C10 witness run: ssh ends with no exit code. -/
def c10okworld : World :=
  ⟨none, none, .ok (some 0), .ok none, .ok (some 0), .ok (some 0)⟩

/-- Witness for the amended C10 at a concrete run. -/
theorem C10_signal_exit_amended_witness :
    (runPipeline c10okcli c10okworld).exit = .code 1 :=
  C10_signal_exit_amended c10okcli c10okworld "srv" (some 0) rfl rfl rfl
    (Or.inl rfl) (Or.inl rfl)


/-! Claims C4 and C5: host resolution. -/

/-- `c["remote"].as_str()` on a table known to have the key, as an
`Option`: the string value if the `remote` value is a string. -/
def remoteStr (t : Table) : Option String :=
  match tableGet t "remote" with
  | some (TomlVal.str s) => some s
  | _ => none

/-- Modelled from the spec (precedence of 4.1): CLI override first, then the
string `remote` value of the project-local file, then that of the user-global file.
Reference definition for the refinement comparison in C4; the spec treats a
key-less parsed file as simply contributing no value. -/
def specResolvedHost (cli : Option String) (proj glob : Option Table) : Option String :=
  match cli with
  | some h => some h
  | none =>
      match proj.bind remoteStr with
      | some h => some h
      | none => glob.bind remoteStr

/-- A config source that cannot trip the toml `Index` panic: absent, or
parsed with a `remote` key present. -/
def hasRemoteKeyB (cfg : Option Table) : Bool :=
  match cfg with
  | none => true
  | some t => (tableGet t "remote").isSome

/-- A config source that yields no host value without panicking: absent
(missing, unreadable or unparseable) or carrying a non-string `remote`
value. -/
def yieldsNoValueB (cfg : Option Table) : Bool :=
  match cfg with
  | none => true
  | some t =>
      match tableGet t "remote" with
      | some TomlVal.nonStr => true
      | _ => false

/-- Counterexample to claim C4 as stated: with no CLI flag, a parsed
project-local file without a `remote` key and a user-global file that sets
`remote = "g"`, the precedence rule says the resolved host is `"g"`, but
the program panics on the toml `Index` of the project-local file instead of
falling through to the user-global source. -/
theorem C4_claim_counterexample :
    specResolvedHost none (some [("other", TomlVal.str "x")])
        (some [("remote", TomlVal.str "g")]) = some "g"
    ∧ resolveHost none (some [("other", TomlVal.str "x")])
        (some [("remote", TomlVal.str "g")]) = .panicMissingKey := by
  constructor <;> rfl

/-- Claim C4 (amended) — whenever the CLI override is present the resolved
host is exactly the CLI value, whatever the two config files hold; and
provided no consulted config file parses successfully while lacking the
`remote` key (such a file panics instead of falling through), resolution
follows the precedence CLI override > project-local file > user-global
file. -/
theorem C4_precedence_amended (cli : Option String) (proj glob : Option Table)
    (hp : hasRemoteKeyB proj = true) (hg : hasRemoteKeyB glob = true) :
    (∀ h p g, resolveHost (some h) p g = .host h)
    ∧ resolveHost cli proj glob =
        (match specResolvedHost cli proj glob with
         | some h => ResolveOutcome.host h
         | none => ResolveOutcome.exitNoRemote) := by
  refine ⟨fun h p g => rfl, ?_⟩
  cases cli with
  | some h => rfl
  | none =>
      cases proj with
      | none =>
          cases glob with
          | none => rfl
          | some t =>
              have hv := Option.isSome_iff_exists.mp hg
              obtain ⟨v, hv⟩ := hv
              cases v with
              | str s => simp [resolveHost, firstRemote, specResolvedHost, remoteStr, hv]
              | nonStr => simp [resolveHost, firstRemote, specResolvedHost, remoteStr, hv]
      | some t =>
          have hv := Option.isSome_iff_exists.mp hp
          obtain ⟨v, hv⟩ := hv
          cases v with
          | str s => simp [resolveHost, firstRemote, specResolvedHost, remoteStr, hv]
          | nonStr =>
              cases glob with
              | none => simp [resolveHost, firstRemote, specResolvedHost, remoteStr, hv]
              | some t2 =>
                  have hv2 := Option.isSome_iff_exists.mp hg
                  obtain ⟨v2, hv2⟩ := hv2
                  cases v2 with
                  | str s2 =>
                      simp [resolveHost, firstRemote, specResolvedHost, remoteStr, hv, hv2]
                  | nonStr =>
                      simp [resolveHost, firstRemote, specResolvedHost, remoteStr, hv, hv2]

/-- Witness for the amended C4: the project-local value wins without a CLI
flag, and the CLI flag wins over a file that sets `remote = "p"`. -/
theorem C4_precedence_amended_witness :
    resolveHost none (some [("remote", TomlVal.str "p")]) none = .host "p"
    ∧ resolveHost (some "clihost") (some [("remote", TomlVal.str "p")]) none
        = .host "clihost" :=
  ⟨(C4_precedence_amended none (some [("remote", TomlVal.str "p")]) none rfl rfl).2,
   (C4_precedence_amended none (some [("remote", TomlVal.str "p")]) none rfl rfl).1
     "clihost" _ _⟩

/-- Helper for C5: a list of sources none of which yields a value (absent or
non-string `remote`) resolves to the fatal no-remote outcome. -/
theorem firstRemote_noValue (cfgs : List (Option Table))
    (h : ∀ cfg ∈ cfgs, yieldsNoValueB cfg = true) :
    firstRemote cfgs = .exitNoRemote := by
  induction cfgs with
  | nil => rfl
  | cons cfg rest ih =>
      have hc := h cfg (by simp)
      have hrest : ∀ x ∈ rest, yieldsNoValueB x = true :=
        fun x hx => h x (by simp [hx])
      cases cfg with
      | none => simpa [firstRemote] using ih hrest
      | some t =>
          rcases htg : tableGet t "remote" with _ | v
          · simp [yieldsNoValueB, htg] at hc
          · cases v with
            | str s => simp [yieldsNoValueB, htg] at hc
            | nonStr =>
                rw [show firstRemote (some t :: rest)
                      = (match tableGet t "remote" with
                         | none => ResolveOutcome.panicMissingKey
                         | some (TomlVal.str s) => ResolveOutcome.host s
                         | some TomlVal.nonStr => firstRemote rest) from rfl, htg]
                exact ih hrest

/-- Cli for the C5 counterexample (no CLI flag). -/
def c5ccli : Cli :=
  ⟨none, "RUST_BACKTRACE=1", "stable", "/etc/profile", none, false, false, "build", []⟩

/-- World for the C5 counterexample: the project-local file parses but lacks
the `remote` key; the user-global file carries `remote = "globhost"`. -/
def c5cworld : World :=
  ⟨some [("name", TomlVal.str "demo")], some [("remote", TomlVal.str "globhost")],
    .ok (some 0), .ok (some 0), .ok (some 0), .ok (some 0)⟩

/-- Counterexample to claim C5 as stated: the user-global source yields the
value `"globhost"`, yet host resolution still fails — the program panics on
the key-less project-local file (and in particular does not reach the
designated exit code path), refuting “host resolution fails only when no
source yields a value”. -/
theorem C5_claim_counterexample :
    remoteStr [("remote", TomlVal.str "globhost")] = some "globhost"
    ∧ runPipeline c5ccli c5cworld = ⟨[], .panic⟩ := by
  constructor <;> rfl

/-- Claim C5 (amended) — a read or parse failure of an individual config
file degrades to that source being absent, and an absent source is skipped,
resolution continuing with the next one; when the CLI flag is absent and
every source yields no value (absent, unreadable, unparseable, or with a
non-string `remote`), the program exits with the designated code -3 before
any transfer or execute stage runs.  (A file that parses but lacks the
`remote` key instead aborts resolution with a panic; see the
counterexample.) -/
theorem C5_config_degradation_amended (c : Cli) (w : World)
    (pt : String → Option Table) (s : String)
    (hcli : c.remote = none)
    (hproj : yieldsNoValueB w.projCfg = true)
    (hglob : yieldsNoValueB w.globCfg = true) :
    config_from_file none pt = none
    ∧ (pt s = none → config_from_file (some s) pt = none)
    ∧ (∀ rest, firstRemote (none :: rest) = firstRemote rest)
    ∧ runPipeline c w = ⟨[], .code (-3)⟩ := by
  have hres : resolveHost c.remote w.projCfg w.globCfg = .exitNoRemote := by
    rw [hcli]
    show firstRemote [w.projCfg, w.globCfg] = .exitNoRemote
    refine firstRemote_noValue _ ?_
    intro cfg hm
    rcases List.mem_pair.mp hm with rfl | rfl
    · exact hproj
    · exact hglob
  refine ⟨rfl, fun hp => by simp [config_from_file, hp], fun rest => rfl, ?_⟩
  unfold runPipeline
  rw [hres]

/-- Cli for the amended-C5 witness (no CLI flag). -/
def c5wcli : Cli :=
  ⟨none, "RUST_BACKTRACE=1", "stable", "/etc/profile", none, false, false, "build", []⟩

/-- World for the amended-C5 witness: project file absent, user-global file
with a non-string `remote`. -/
def c5wworld : World :=
  ⟨none, some [("remote", TomlVal.nonStr)], .ok (some 0), .ok (some 0), .ok (some 0),
    .ok (some 0)⟩

/-- Witness for the amended C5 at a concrete configuration state. -/
theorem C5_config_degradation_amended_witness :
    config_from_file none (fun _ => none) = none
    ∧ runPipeline c5wcli c5wworld = ⟨[], .code (-3)⟩ :=
  ⟨(C5_config_degradation_amended c5wcli c5wworld (fun _ => none) "x" rfl rfl rfl).1,
   (C5_config_degradation_amended c5wcli c5wworld (fun _ => none) "x" rfl rfl rfl).2.2.2⟩

/-! Claim C6: structure of the remote command line. -/

/-- Claim C6 — the remote command string is, in this order: the statement
sourcing the environment profile, the toolchain-selection statement, the
change-directory statement into the workspace path, and the final
invocation made of the `build_env` string, the build tool name `cargo`, the
command, and the extra arguments joined by spaces in their original order —
the four statements separated by `; `. -/
theorem C6_build_command_structure (envProfile rustupDefault buildPathStr buildEnv
    command : String) (options : List String) :
    buildCommand envProfile rustupDefault buildPathStr buildEnv command options
      = ("source " ++ envProfile) ++ "; " ++ ("rustup default " ++ rustupDefault)
        ++ "; " ++ ("cd " ++ buildPathStr) ++ "; "
        ++ (buildEnv ++ " cargo " ++ command ++ " "
            ++ String.intercalate " " options) := by
  apply String.ext
  simp [buildCommand, String.data_append, List.append_assoc, List.cons_append,
    List.nil_append]

/-! Claims C8 and C9: outbound rsync options. -/

/-- A string obtained by appending `/` differs from any string whose last
character is not `/`. -/
theorem appendSlash_ne (q t : String) (ht : t.data.getLast? ≠ some '/') : q ++ "/" ≠ t := by
  intro h
  apply ht
  rw [← h, String.data_append]
  exact List.getLast?_concat _

/-- The destination argument ends in `/`, since the workspace path does. -/
theorem dest_arg_eq (server : String) (root : List Nat) :
    server ++ ":" ++ buildPath root
      = (server ++ ":" ++ ("~/remote-builds/"
          ++ Nat.repr (sipHash13 (pathHashInput root)))) ++ "/" := by
  simp [buildPath, String.append_assoc]

/-- Every outbound rsync argument is one of the constant flags/patterns, the
source argument `p ++ "/"`, or the destination argument. -/
theorem mem_rsyncToArgs (x : String) (hidden : Bool) (p server bp : String)
    (hm : x ∈ rsyncToArgs hidden p server bp) :
    x ∈ (["-a", "--delete", "--compress", "--info=progress2", "--exclude", "--target",
          ".*", "--rsync-path", "mkdir -p remote-builds && rsync"] : List String)
    ∨ x = p ++ "/" ∨ x = server ++ ":" ++ bp := by
  cases hidden <;> simp [rsyncToArgs] at hm <;> simp <;> tauto

/-- With `--transfer-hidden` given, every outbound rsync argument is one of
the constants other than `.*`, the source argument, or the destination. -/
theorem mem_rsyncToArgs_hidden (x : String) (p server bp : String)
    (hm : x ∈ rsyncToArgs true p server bp) :
    x ∈ (["-a", "--delete", "--compress", "--info=progress2", "--exclude", "--target",
          "--rsync-path", "mkdir -p remote-builds && rsync"] : List String)
    ∨ x = p ++ "/" ∨ x = server ++ ":" ++ bp := by
  simp [rsyncToArgs] at hm
  simp
  tauto

/-- With `--transfer-hidden` given, the pattern `.*` appears nowhere in the
outbound rsync arguments. -/
theorem dotstar_not_mem (p server : String) (root : List Nat) :
    (".*" : String) ∉ rsyncToArgs true p server (buildPath root) := by
  intro hm
  rcases mem_rsyncToArgs_hidden _ p server _ hm with h | h | h
  · exact absurd h (by decide)
  · exact appendSlash_ne p ".*" (by decide) h.symm
  · rw [dest_arg_eq] at h
    exact appendSlash_ne _ ".*" (by decide) h.symm

/-- The string `target` appears nowhere in the outbound rsync arguments. -/
theorem target_not_mem (hidden : Bool) (p server : String) (root : List Nat) :
    ("target" : String) ∉ rsyncToArgs hidden p server (buildPath root) := by
  intro hm
  rcases mem_rsyncToArgs _ hidden p server _ hm with h | h | h
  · exact absurd h (by decide)
  · exact appendSlash_ne p "target" (by decide) h.symm
  · rw [dest_arg_eq] at h
    exact appendSlash_ne _ "target" (by decide) h.symm

/-- The second element of a two-element contiguous sublist is a member. -/
theorem pair_inf_mem {a b : String} {l : List String} (h : [a, b] <:+: l) : b ∈ l := by
  obtain ⟨s, t, rfl⟩ := h
  simp

/-- Claim C8 — the outbound transfer is invoked with the archive (`-a`),
delete-extraneous (`--delete`), compression (`--compress`) and
progress-reporting (`--info=progress2`) options, and its argument list
contains the consecutive pair `--exclude` `.*` (excluding dotfiles and
dot-directories) exactly when the `--transfer-hidden` flag is false. -/
theorem C8_rsync_out_options (hidden : Bool) (p server : String) (root : List Nat) :
    "-a" ∈ rsyncToArgs hidden p server (buildPath root)
    ∧ "--delete" ∈ rsyncToArgs hidden p server (buildPath root)
    ∧ "--compress" ∈ rsyncToArgs hidden p server (buildPath root)
    ∧ "--info=progress2" ∈ rsyncToArgs hidden p server (buildPath root)
    ∧ (["--exclude", ".*"] <:+: rsyncToArgs hidden p server (buildPath root)
        ↔ hidden = false) := by
  refine ⟨?_, ?_, ?_, ?_, ?_⟩
  · cases hidden <;> simp [rsyncToArgs]
  · cases hidden <;> simp [rsyncToArgs]
  · cases hidden <;> simp [rsyncToArgs]
  · cases hidden <;> simp [rsyncToArgs]
  · cases hidden
    case false =>
      refine iff_of_true ?_ rfl
      exact ⟨["-a", "--delete", "--compress", "--info=progress2", "--exclude", "--target"],
        ["--rsync-path", "mkdir -p remote-builds && rsync", p ++ "/",
         server ++ ":" ++ buildPath root], by simp [rsyncToArgs]⟩
    case true =>
      refine iff_of_false ?_ (by decide)
      intro hinf
      exact absurd (pair_inf_mem hinf) (dotstar_not_mem p server root)

/-- Claim C9 — for every flag combination the outbound rsync argument list
contains the consecutive pair `--exclude` followed by the literal pattern
`--target` (so entries named exactly `--target` are excluded, not the build
output directory `target`: no `--exclude target` pair occurs), and this
exclusion is unconditional. -/
theorem C9_exclude_target_literal (hidden : Bool) (p server : String) (root : List Nat) :
    ["--exclude", "--target"] <:+: rsyncToArgs hidden p server (buildPath root)
    ∧ ¬ (["--exclude", "target"] <:+: rsyncToArgs hidden p server (buildPath root)) := by
  constructor
  · exact ⟨["-a", "--delete", "--compress", "--info=progress2"],
      (if hidden then [] else ["--exclude", ".*"])
        ++ ["--rsync-path", "mkdir -p remote-builds && rsync", p ++ "/",
            server ++ ":" ++ buildPath root],
      by cases hidden <;> simp [rsyncToArgs]⟩
  · intro hinf
    exact absurd (pair_inf_mem hinf) (target_not_mem hidden p server root)

/-! Claim C7: workspace path determinism and trailing-slash normalization. -/

/-- Appending a separator commutes with the elision of a leading `.`
component. -/
theorem dropDot_append_sep (l : List Nat) : dropDot (l ++ [47]) = dropDot l ++ [47] := by
  match l with
  | [] => rfl
  | [b] => by_cases hb : b = 46 <;> simp [dropDot, hb]
  | b :: c :: t =>
      by_cases hb : b = 46 <;> by_cases hc : c = 47 <;> simp [dropDot, hb, hc]

/-- Appending a trailing separator only appends an empty final chunk. -/
theorem pathChunks_append_sep (cur s : List Nat) :
    pathChunks cur (s ++ [47]) = pathChunks cur s ++ [[]] := by
  induction cur, s using pathChunks.induct with
  | case1 cur => simp [pathChunks, dropDot]
  | case2 cur rest ih => simp [pathChunks, dropDot_append_sep, ih]
  | case3 cur b rest hb ih =>
      simp only [List.cons_append, pathChunks, if_neg hb]
      exact ih

/-- The hashed byte stream ignores a trailing separator. -/
theorem pathHashInput_append_sep (root : List Nat) :
    pathHashInput (root ++ [47]) = pathHashInput root := by
  unfold pathHashInput
  rw [pathChunks_append_sep]
  simp

/-- Claim C7 — the derived workspace path is a deterministic function of the
canonical project-root path: `buildPath` is a pure function of the path
bytes (and `DefaultHasher::new()` fixes both SipHash keys to zero), so
repeated derivations yield the identical string; it has the shape
`~/remote-builds/<hash>/` with the decimal hash between the fixed prefix
and the trailing slash; and two representations of the root differing only
in a trailing slash yield the identical workspace path, since `Path::hash`
elides separators before hashing. -/
theorem C7_workspace_path (root : List Nat) :
    buildPath root
      = "~/remote-builds/" ++ Nat.repr (sipHash13 (pathHashInput root)) ++ "/"
    ∧ buildPath (root ++ [47]) = buildPath root := by
  refine ⟨rfl, ?_⟩
  unfold buildPath
  rw [pathHashInput_append_sep]

end Remocom
